import Mathlib

/-!
Shallow embedding of `src/homework.py` (fitness-tracker calculation module).

Numbers are modelled as exact rationals (`ℚ`); the Python source computes with
floats, and the spec's numeric claims are stated up to floating tolerance, so
the rational value is the reference value.  Python runtime exceptions that can
escape the modelled functions (`KeyError`, `TypeError`, `ZeroDivisionError`)
are modelled as `Except` error values of type `PyError`: an `Except.error e`
result means the Python call raises `e` and the exception propagates unhandled
to the caller.
-/

/-- Record mirroring class `InfoMessage` of `src/homework.py`: training-type
label, duration in hours, distance in km, mean speed in km/h, calories. -/
structure InfoMessage where
  training_type : String
  duration : ℚ
  distance : ℚ
  speed : ℚ
  calories : ℚ
deriving DecidableEq

/-- The closed set of training variants of `src/homework.py`: classes
`Running`, `SportsWalking` and `Swimming`, all subclasses of `Training`.
Each constructor carries exactly the fields its `__init__` stores
(`action`, `duration`, `weight`, plus `height` for `SportsWalking` and
`length_pool`, `count_pool` for `Swimming`). -/
inductive Training where
  | running (action duration weight : ℚ)
  | sportsWalking (action duration weight height : ℚ)
  | swimming (action duration weight length_pool count_pool : ℚ)
deriving DecidableEq

namespace Training

/-- Class attribute `M_IN_KM = 1000` (metres per kilometre). -/
def M_IN_KM : ℚ := 1000

/-- Class attribute `LEN_STEP`: `0.65` on `Training` (inherited by `Running`),
re-declared as `0.65` on `SportsWalking` and overridden to `1.38` on
`Swimming`. -/
def LEN_STEP : Training → ℚ
  | running .. => 0.65
  | sportsWalking .. => 0.65
  | swimming .. => 1.38

/-- Field `self.action` stored by `Training.__init__`. -/
def action : Training → ℚ
  | running a _ _ => a
  | sportsWalking a _ _ _ => a
  | swimming a _ _ _ _ => a

/-- Field `self.duration` stored by `Training.__init__` (hours). -/
def duration : Training → ℚ
  | running _ d _ => d
  | sportsWalking _ d _ _ => d
  | swimming _ d _ _ _ => d

/-- Field `self.weight` stored by `Training.__init__` (kilograms). -/
def weight : Training → ℚ
  | running _ _ w => w
  | sportsWalking _ _ w _ => w
  | swimming _ _ w _ _ => w

/-- Field `self.training_type = self.__class__.__name__` set by
`Training.__init__`: the runtime class name of the concrete variant. -/
def training_type : Training → String
  | running .. => "Running"
  | sportsWalking .. => "SportsWalking"
  | swimming .. => "Swimming"

/-- Method `Training.get_distance`:
`self.action * self.LEN_STEP / self.M_IN_KM` (not overridden anywhere). -/
def get_distance (t : Training) : ℚ :=
  t.action * t.LEN_STEP / M_IN_KM

/-- Method `get_mean_speed`: the base class returns
`self.get_distance() / self.duration`; `Swimming` overrides it with
`self.length_pool * self.count_pool / self.M_IN_KM / self.duration`. -/
def get_mean_speed : Training → ℚ
  | swimming _ d _ length_pool count_pool =>
      length_pool * count_pool / M_IN_KM / d
  | t => get_distance t / t.duration

/-- Python float floor division `x // y`: the floor of the true quotient. -/
def pyFloorDiv (x y : ℚ) : ℚ := (⌊x / y⌋ : ℚ)

/-- Method `get_spent_calories`, the per-variant override point:
* `Running`: `(18 * mean_speed - 20) * weight / M_IN_KM * (duration * 60)`;
* `SportsWalking`:
  `(0.035 * weight + (mean_speed ** 2 // height) * 0.029 * weight) * (duration * 60)`
  where `//` is Python float floor division;
* `Swimming`: `(mean_speed + 1.1) * 2 * weight`. -/
def get_spent_calories : Training → ℚ
  | t@(running ..) =>
      (18 * t.get_mean_speed - 20) * t.weight / M_IN_KM * (t.duration * 60)
  | t@(sportsWalking _ _ _ height) =>
      (0.035 * t.weight + pyFloorDiv (t.get_mean_speed ^ 2) height * 0.029 * t.weight)
        * (t.duration * 60)
  | t@(swimming ..) =>
      (t.get_mean_speed + 1.1) * 2 * t.weight

/-- Method `Training.show_training_info`: packs the label and the four
computed numbers into an `InfoMessage`. -/
def show_training_info (t : Training) : InfoMessage :=
  { training_type := t.training_type
    duration := t.duration
    distance := t.get_distance
    speed := t.get_mean_speed
    calories := t.get_spent_calories }

end Training

/-- Python runtime exceptions that can escape the modelled functions:
`KeyError` (failed dict lookup, carrying the missing key), `TypeError`
(calling a constructor with the wrong number of arguments), and
`ZeroDivisionError` (float division by zero).  None of them is a typed
application-level error: an `Except.error` built from one of these means the
exception propagates unhandled to the caller. -/
inductive PyError where
  | keyError (key : String)
  | typeError
  | zeroDivisionError
deriving DecidableEq

/-- Function `read_package(workout_type, data)`: looks `workout_type` up in
`class_links = {SWM: Swimming, RUN: Running, WLK: SportsWalking}` and calls
the found class with `*data`.  A missing key raises `KeyError` and the
`except KeyError: raise` clause re-raises it; an argument list whose length
differs from the constructor arity raises `TypeError` (not caught at all). -/
def read_package (workout_type : String) (data : List ℚ) : Except PyError Training :=
  if workout_type = "SWM" then
    match data with
    | [action, duration, weight, length_pool, count_pool] =>
        .ok (.swimming action duration weight length_pool count_pool)
    | _ => .error .typeError
  else if workout_type = "RUN" then
    match data with
    | [action, duration, weight] => .ok (.running action duration weight)
    | _ => .error .typeError
  else if workout_type = "WLK" then
    match data with
    | [action, duration, weight, height] =>
        .ok (.sportsWalking action duration weight height)
    | _ => .error .typeError
  else .error (.keyError workout_type)

/-- Exception-aware view of `get_mean_speed`: in Python the division
`... / self.duration` raises `ZeroDivisionError` when `duration == 0` and
otherwise returns the quotient; no guard of any kind exists in the source. -/
def Training.get_mean_speedE : Training → Except PyError ℚ
  | .swimming _ d _ length_pool count_pool =>
      if d = 0 then .error .zeroDivisionError
      else .ok (length_pool * count_pool / Training.M_IN_KM / d)
  | t =>
      if t.duration = 0 then .error .zeroDivisionError
      else .ok (t.get_distance / t.duration)

section Formatting

/-- Zero-padded three-digit decimal rendering of `k % 1000`: the three
characters Python's `:.3f` places after the decimal point. -/
def pad3 (k : ℕ) : String :=
  ⟨[Nat.digitChar (k / 100 % 10), Nat.digitChar (k / 10 % 10), Nat.digitChar (k % 10)]⟩

/-- Decimal rendering of a natural number, built digit by digit. -/
def natDigitsStr (n : ℕ) : String :=
  if _h : n < 10 then ⟨[Nat.digitChar n]⟩
  else natDigitsStr (n / 10) ++ ⟨[Nat.digitChar (n % 10)]⟩
termination_by n
decreasing_by exact Nat.div_lt_self (by omega) (by omega)

/-- Python fixed-point formatting `f-string {x:.3f}`: the value scaled by
1000 is rounded to the nearest integer (the tie-breaking mode does not affect
any property stated below), then rendered as an optional sign, the integer
part, a point, and exactly three digits. -/
def formatFixed3 (q : ℚ) : String :=
  ((if ⌊q * 1000 + 1/2⌋ < 0 then "-" else "")
      ++ natDigitsStr ((⌊q * 1000 + 1/2⌋ : ℤ).natAbs / 1000))
    ++ "." ++ pad3 ((⌊q * 1000 + 1/2⌋ : ℤ).natAbs % 1000)

/-- Method `InfoMessage.get_message`: the fixed-format message with the four
numeric fields rendered by `:.3f`. -/
def InfoMessage.get_message (i : InfoMessage) : String :=
  "Тип тренировки: " ++ i.training_type ++ "; Длительность: "
    ++ formatFixed3 i.duration ++ " ч.; Дистанция: "
    ++ formatFixed3 i.distance ++ " км; Ср. скорость: "
    ++ formatFixed3 i.speed ++ " км/ч; Потрачено ккал: "
    ++ formatFixed3 i.calories ++ "."

/-- A string that ends in a decimal point followed by exactly three digit
characters, with no other decimal point. -/
def hasThreeDecimals (s : String) : Prop :=
  ∃ w d3 : String, s = w ++ "." ++ d3 ∧ (∀ c ∈ w.data, c ≠ '.')
    ∧ d3.length = 3 ∧ ∀ c ∈ d3.data, c.isDigit

end Formatting

/-! Helper lemmas shared by the theorems below. -/

/-- A digit character produced from a value below ten is a decimal digit. -/
theorem digitChar_isDigit_of_lt : ∀ r < 10, (Nat.digitChar r).isDigit = true := by decide

/-- Appending strings concatenates their character lists. -/
theorem data_append (a b : String) : (a ++ b).data = a.data ++ b.data := rfl

/-- Building a string from an explicit character list yields that list. -/
theorem data_mk (l : List Char) : (String.mk l).data = l := rfl

/-- Every character produced by `natDigitsStr` is a decimal digit. -/
theorem natDigitsStr_all_digits (n : ℕ) : ∀ c ∈ (natDigitsStr n).data, c.isDigit = true := by
  induction n using Nat.strong_induction_on with
  | _ n ih =>
    intro c hc
    unfold natDigitsStr at hc
    split at hc
    · rw [data_mk] at hc
      rcases List.mem_singleton.mp hc with rfl
      exact digitChar_isDigit_of_lt n ‹n < 10›
    · rw [data_append, data_mk] at hc
      rcases List.mem_append.mp hc with h1 | h2
      · exact ih (n / 10) (Nat.div_lt_self (by omega) (by omega)) c h1
      · rcases List.mem_singleton.mp h2 with rfl
        exact digitChar_isDigit_of_lt _ (Nat.mod_lt _ (by omega))

/-- Every rendering produced by `formatFixed3` ends in a point followed by
exactly three digit characters, and contains no other point. -/
theorem formatFixed3_hasThreeDecimals (q : ℚ) : hasThreeDecimals (formatFixed3 q) := by
  refine ⟨(if ⌊q * 1000 + 1/2⌋ < 0 then "-" else "")
      ++ natDigitsStr ((⌊q * 1000 + 1/2⌋ : ℤ).natAbs / 1000),
    pad3 ((⌊q * 1000 + 1/2⌋ : ℤ).natAbs % 1000), rfl, ?_, rfl, ?_⟩
  · intro c hc
    rw [data_append] at hc
    rcases List.mem_append.mp hc with h1 | h2
    · by_cases hneg : (⌊q * 1000 + 1/2⌋ : ℤ) < 0
      · rw [if_pos hneg] at h1
        rcases List.mem_singleton.mp h1 with rfl
        decide
      · rw [if_neg hneg] at h1
        exact absurd h1 (List.not_mem_nil c)
    · have hd := natDigitsStr_all_digits _ c h2
      intro hEq
      rw [hEq] at hd
      exact absurd hd (by decide)
  · intro c hc
    simp [pad3, data_mk] at hc
    rcases hc with rfl | rfl | rfl <;>
      exact digitChar_isDigit_of_lt _ (Nat.mod_lt _ (by omega))

/-! Claim theorems. -/

/-- C1 counterexample: dispatching the unrecognized code `XXX` does not
return a typed `UnknownWorkoutCode` value — it raises a `KeyError`, which the
`except KeyError: raise` clause re-raises, so the fault propagates unhandled
to the caller. -/
theorem read_package_xxx_raises_keyError :
    read_package "XXX" [720, 1, 80] = .error (.keyError "XXX") := rfl

/-- C1 amended: for every argument list, calling `read_package` with any code
outside {SWM, RUN, WLK} raises (propagates) a `KeyError` carrying the
offending code, and no variant is constructed. -/
theorem read_package_unknown_code (code : String) (data : List ℚ)
    (h1 : code ≠ "SWM") (h2 : code ≠ "RUN") (h3 : code ≠ "WLK") :
    read_package code data = .error (.keyError code) := by
  unfold read_package
  rw [if_neg h1, if_neg h2, if_neg h3]

/-- C1 witness: the amended statement instantiated at code `XXX`. -/
theorem read_package_unknown_code_checked :
    read_package "XXX" [15000, 1, 75] = .error (.keyError "XXX") :=
  read_package_unknown_code "XXX" [15000, 1, 75] (by decide) (by decide) (by decide)

/-- C2 counterexample: dispatching code `RUN` with two arguments instead of
three does not return a typed `InvalidArgumentCount` value — the constructor
call raises a `TypeError` that no handler catches. -/
theorem read_package_run_two_args_raises_typeError :
    read_package "RUN" [15000, 1] = .error .typeError := rfl

/-- C2 amended: for every recognized code, an argument list whose length
differs from that code's constructor arity (SWM: 5, RUN: 3, WLK: 4) makes
`read_package` raise (propagate) a `TypeError`; in particular no
partially-valid variant is ever constructed. -/
theorem read_package_arity_mismatch (data : List ℚ) :
    (data.length ≠ 5 → read_package "SWM" data = .error .typeError) ∧
    (data.length ≠ 3 → read_package "RUN" data = .error .typeError) ∧
    (data.length ≠ 4 → read_package "WLK" data = .error .typeError) := by
  refine ⟨fun h => ?_, fun h => ?_, fun h => ?_⟩ <;>
    rcases data with _ | ⟨a, _ | ⟨b, _ | ⟨c, _ | ⟨d, _ | ⟨e, _ | ⟨f, rest⟩⟩⟩⟩⟩⟩ <;>
    first
      | rfl
      | simp at h

/-- C2 witness: the amended statement instantiated at code `SWM` with a
two-element argument list. -/
theorem read_package_arity_mismatch_checked :
    read_package "SWM" [720, 1] = .error .typeError :=
  (read_package_arity_mismatch [720, 1]).1 (by decide)

/-- C3 counterexample: `Running(action=15000, duration=1, weight=75)` burns
exactly 699.75 kcal, which is not within any floating tolerance of the
claimed 873.3375. -/
theorem running_calories_not_spec_value :
    Training.get_spent_calories (.running 15000 1 75) = 699.75 ∧
    ¬ |Training.get_spent_calories (.running 15000 1 75) - 873.3375| < 1 := by
  have h1 : Training.get_spent_calories (.running 15000 1 75) = 699.75 := by
    norm_num [Training.get_spent_calories, Training.get_mean_speed, Training.get_distance,
      Training.action, Training.duration, Training.weight, Training.LEN_STEP, Training.M_IN_KM]
  refine ⟨h1, ?_⟩
  rw [h1]
  norm_num [abs_lt]

/-- C3 amended: `Running(action=15000, duration=1, weight=75)` yields
distance 9.75 km, mean speed 9.75 km/h, and exactly 699.75 kcal
(the value `(18 * 9.75 - 20) * 75 / 1000 * 60`). -/
theorem running_concrete_values :
    Training.get_distance (.running 15000 1 75) = 9.75 ∧
    Training.get_mean_speed (.running 15000 1 75) = 9.75 ∧
    Training.get_spent_calories (.running 15000 1 75) = 699.75 := by
  refine ⟨?_, ?_, ?_⟩ <;>
    norm_num [Training.get_spent_calories, Training.get_mean_speed, Training.get_distance,
      Training.action, Training.duration, Training.weight, Training.LEN_STEP, Training.M_IN_KM]

/-- C4 counterexample: `Swimming(action=720, duration=1, weight=80,
length_pool=25, count_pool=40)` burns exactly 336 kcal
(`(1.0 + 1.1) * 2 * 80`), not the claimed 168. -/
theorem swimming_calories_not_spec_value :
    Training.get_spent_calories (.swimming 720 1 80 25 40) = 336 ∧ (336 : ℚ) ≠ 168 := by
  constructor
  · norm_num [Training.get_spent_calories, Training.get_mean_speed, Training.weight,
      Training.M_IN_KM]
  · norm_num

/-- C4 amended: `Swimming(action=720, duration=1, weight=80, length_pool=25,
count_pool=40)` has mean speed 1.0 km/h and burns exactly 336.0 kcal. -/
theorem swimming_concrete_values :
    Training.get_mean_speed (.swimming 720 1 80 25 40) = 1 ∧
    Training.get_spent_calories (.swimming 720 1 80 25 40) = 336 := by
  constructor <;>
    norm_num [Training.get_spent_calories, Training.get_mean_speed, Training.weight,
      Training.M_IN_KM]

/-- C5: for every `SportsWalking` variant with positive duration, weight and
height, the calories equal
`(0.035 * weight + floor(mean_speed ^ 2 / height) * 0.029 * weight) * (duration * 60)`
where the division of the squared mean speed by the height is floor division;
moreover, at the spec's input (action 9000, duration 1, weight 75, height 180)
the floor-division value is exactly 157.5, which the true-division variant of
the formula does not produce. -/
theorem sportsWalking_calories_formula (a d w h : ℚ)
    (hd : 0 < d) (hw : 0 < w) (hh : 0 < h) :
    Training.get_spent_calories (.sportsWalking a d w h) =
      (0.035 * w + (⌊(a * 0.65 / 1000 / d) ^ 2 / h⌋ : ℚ) * 0.029 * w) * (d * 60) ∧
    Training.get_spent_calories (.sportsWalking 9000 1 75 180) = 157.5 ∧
    (0.035 * 75 + ((9000 * 0.65 / 1000 / 1 : ℚ) ^ 2 / 180) * 0.029 * 75) * (1 * 60) ≠ 157.5 := by
  refine ⟨rfl, ?_, ?_⟩
  · have hs : Training.get_mean_speed (.sportsWalking 9000 1 75 180) = 5.85 := by
      norm_num [Training.get_mean_speed, Training.get_distance, Training.action,
        Training.duration, Training.LEN_STEP, Training.M_IN_KM]
    have hfl : Training.pyFloorDiv
        (Training.get_mean_speed (.sportsWalking 9000 1 75 180) ^ 2) 180 = 0 := by
      unfold Training.pyFloorDiv
      rw [show Training.get_mean_speed (.sportsWalking 9000 1 75 180) ^ 2 / (180 : ℚ)
          = 1521/8000 by rw [hs]; norm_num]
      norm_num [Int.floor_eq_zero_iff, Set.mem_Ico]
    show (0.035 * Training.weight (.sportsWalking 9000 1 75 180) + _) * _ = _
    rw [hfl]
    norm_num [Training.weight, Training.duration]
  · norm_num

/-- C5 witness: the floor-division formula instantiated at the spec's
race-walking input. -/
theorem sportsWalking_calories_formula_checked :
    Training.get_spent_calories (.sportsWalking 9000 1 75 180) =
      (0.035 * 75 + (⌊((9000 : ℚ) * 0.65 / 1000 / 1) ^ 2 / 180⌋ : ℚ) * 0.029 * 75)
        * (1 * 60) :=
  (sportsWalking_calories_formula 9000 1 75 180 (by norm_num) (by norm_num) (by norm_num)).1

/-- C6: for every `Running` variant with positive duration, the calories
equal `(18 * mean_speed - 20) * weight / 1000 * (duration * 60)` with the
mean speed computed as `action * 0.65 / 1000 / duration`. -/
theorem running_calories_formula (a d w : ℚ) (hd : 0 < d) :
    Training.get_spent_calories (.running a d w) =
      (18 * (a * 0.65 / 1000 / d) - 20) * w / 1000 * (d * 60) := rfl

/-- C6 witness: the running calorie formula instantiated at the spec's
running input. -/
theorem running_calories_formula_checked :
    Training.get_spent_calories (.running 15000 1 75) =
      (18 * ((15000 : ℚ) * 0.65 / 1000 / 1) - 20) * 75 / 1000 * (1 * 60) :=
  running_calories_formula 15000 1 75 (by norm_num)

/-- C7: for every `Swimming` variant with positive duration, the mean speed
is `length_pool * count_pool / 1000 / duration` while the distance is the
generic step formula `action * 1.38 / 1000`; the summary's distance field
carries that value, and the summary's speed and calories fields do not
depend on `action` at all. -/
theorem swimming_speed_and_distance (a d w lp cp : ℚ) (hd : 0 < d) :
    Training.get_mean_speed (.swimming a d w lp cp) = lp * cp / 1000 / d ∧
    Training.get_distance (.swimming a d w lp cp) = a * 1.38 / 1000 ∧
    (Training.show_training_info (.swimming a d w lp cp)).distance = a * 1.38 / 1000 ∧
    ∀ a' : ℚ,
      (Training.show_training_info (.swimming a' d w lp cp)).speed =
        (Training.show_training_info (.swimming a d w lp cp)).speed ∧
      (Training.show_training_info (.swimming a' d w lp cp)).calories =
        (Training.show_training_info (.swimming a d w lp cp)).calories :=
  ⟨rfl, rfl, rfl, fun _ => ⟨rfl, rfl⟩⟩

/-- C7 witness: the swimming speed formula instantiated at the spec's
swimming input. -/
theorem swimming_speed_and_distance_checked :
    Training.get_mean_speed (.swimming 720 1 80 25 40) = 25 * 40 / 1000 / 1 :=
  (swimming_speed_and_distance 720 1 80 25 40 (by norm_num)).1

/-- C8 counterexample: no guard exists around the division by `duration`:
with duration 0 the speed computation raises (propagates) a
`ZeroDivisionError` — a division fault, not an explicit error value — and
with the negative duration -1 it raises nothing at all and silently returns
the negative speed -9.75. -/
theorem mean_speed_no_guard :
    Training.get_mean_speedE (.running 15000 0 75) = .error .zeroDivisionError ∧
    Training.get_mean_speedE (.running 15000 (-1) 75) = .ok (-9.75) := by
  constructor
  · rfl
  · simp [Training.get_mean_speedE, Training.duration, Training.get_distance,
      Training.action, Training.LEN_STEP, Training.M_IN_KM]
    norm_num

/-- C8 amended: the speed computation is unguarded: it propagates a
`ZeroDivisionError` division fault exactly when the duration is zero, and for
every non-zero (including negative) duration it returns the computed value
with no error; in particular under the precondition `duration > 0` no
division fault is reachable. -/
theorem mean_speedE_spec (t : Training) :
    (t.duration = 0 → Training.get_mean_speedE t = .error .zeroDivisionError) ∧
    (t.duration ≠ 0 → Training.get_mean_speedE t = .ok (Training.get_mean_speed t)) := by
  cases t with
  | running a d w =>
    constructor <;> intro h <;>
      simp only [Training.duration] at h <;>
      simp [Training.get_mean_speedE, Training.duration, Training.get_mean_speed, h]
  | sportsWalking a d w ht =>
    constructor <;> intro h <;>
      simp only [Training.duration] at h <;>
      simp [Training.get_mean_speedE, Training.duration, Training.get_mean_speed, h]
  | swimming a d w lp cp =>
    constructor <;> intro h <;>
      simp only [Training.duration] at h <;>
      simp [Training.get_mean_speedE, Training.duration, Training.get_mean_speed, h]

/-- C8 witness: the amended statement instantiated at the spec's running
input, whose duration 1 is non-zero. -/
theorem mean_speedE_spec_checked :
    Training.get_mean_speedE (.running 15000 1 75) =
      .ok (Training.get_mean_speed (.running 15000 1 75)) :=
  (mean_speedE_spec (.running 15000 1 75)).2 (by norm_num [Training.duration])

/-- C10: the training-type label placed in the summary record is exactly the
implementing class's name — `Running`, `SportsWalking` or `Swimming` — as
`self.__class__.__name__` resolves it; the race-walking variant is labeled
`SportsWalking`, which differs from `RaceWalking` and from `WLK`. -/
theorem training_type_is_class_name (a d w h lp cp : ℚ) :
    (Training.show_training_info (.running a d w)).training_type = "Running" ∧
    (Training.show_training_info (.sportsWalking a d w h)).training_type = "SportsWalking" ∧
    (Training.show_training_info (.swimming a d w lp cp)).training_type = "Swimming" ∧
    (Training.show_training_info (.sportsWalking a d w h)).training_type ≠ "RaceWalking" ∧
    (Training.show_training_info (.sportsWalking a d w h)).training_type ≠ "WLK" := by
  refine ⟨rfl, rfl, rfl, ?_, ?_⟩
  · intro hEq
    rw [show (Training.show_training_info (.sportsWalking a d w h)).training_type
        = "SportsWalking" from rfl] at hEq
    exact absurd hEq (by decide)
  · intro hEq
    rw [show (Training.show_training_info (.sportsWalking a d w h)).training_type
        = "SportsWalking" from rfl] at hEq
    exact absurd hEq (by decide)

/-- C9: the rendered message always consists of the label followed by the
four numeric fields (duration, distance, speed, calories), each of which is
rendered with a decimal point followed by exactly three digit characters —
also when the underlying value is an integer, and whatever its magnitude or
sign. -/
theorem get_message_three_decimals (i : InfoMessage) :
    ∃ f1 f2 f3 f4 : String,
      i.get_message = "Тип тренировки: " ++ i.training_type ++ "; Длительность: "
          ++ f1 ++ " ч.; Дистанция: " ++ f2 ++ " км; Ср. скорость: "
          ++ f3 ++ " км/ч; Потрачено ккал: " ++ f4 ++ "." ∧
      hasThreeDecimals f1 ∧ hasThreeDecimals f2 ∧ hasThreeDecimals f3 ∧
      hasThreeDecimals f4 :=
  ⟨formatFixed3 i.duration, formatFixed3 i.distance, formatFixed3 i.speed,
    formatFixed3 i.calories, rfl,
    formatFixed3_hasThreeDecimals _, formatFixed3_hasThreeDecimals _,
    formatFixed3_hasThreeDecimals _, formatFixed3_hasThreeDecimals _⟩
